import Mathlib

/-!
Verification development for the ResearchAgent repository.

The repository has three Python source files:
* `Agent.py` — a LangGraph state machine over `AgentState = {messages: List[...]}`
  with nodes `agent` (`call_model`) and `tools` (`ToolNode`), conditional edge
  `should_continue`, compiled with a `MemorySaver` checkpointer;
* `main.py` — the CLI loop invoking the compiled graph with
  `{"messages": [HumanMessage(input)]}` under a fixed `thread_id`;
* `utils.py` — four paper-source adapters (`search_arxiv`, `search_pubmed`,
  `search_semantic_scholar`, `search_google_scholar`).

This file is a shallow embedding of that code.  External collaborators — the
Gemini model invocation, the HTTP endpoints, the feed/XML/JSON parsers and the
`scholarly` library — are modelled as explicit oracle parameters; an oracle
returning `Except.error e` models the collaborator raising exception `e`.
Python strings are modelled by `String` (Python indexes/slices strings by code
point, as `String.data : List Char` does).  Each adapter additionally returns
the list of request URLs it issued, so that "no network call is made" is a
statement about the embedding.
-/

set_option maxRecDepth 8000

/-- Models Python `str.strip()`: remove leading and trailing whitespace.
(`String.trim` is extensionally the same but its `Substring`-based definition
does not reduce in the kernel, so we work on `String.data` directly.) -/
def pyStrip (s : String) : String :=
  String.mk (((s.data.dropWhile Char.isWhitespace).reverse.dropWhile Char.isWhitespace).reverse)

/-- Models the Python slice `s[:n]` on strings (by code point, as Python does). -/
def pyTake (s : String) (n : Nat) : String :=
  String.mk (s.data.take n)

/-- Models Python `s.startswith(p)`. -/
def pyStartsWith (p s : String) : Bool :=
  p.data.isPrefixOf s.data

lemma string_data_append (s t : String) : (s ++ t).data = s.data ++ t.data := by
  cases s; cases t; rfl

lemma string_length_append (s t : String) : (s ++ t).length = s.length + t.length := by
  show (s ++ t).data.length = s.data.length + t.data.length
  rw [string_data_append, List.length_append]

/-! ## Agent.py: messages and the decision loop -/

/-- A tool-call request attached to a model output message
(langchain `tool_calls`: tool name, serialized arguments, call identifier). -/
structure ToolCall where
  name : String
  args : String
  id : String
deriving DecidableEq

/-- The langchain message union used by `AgentState`
(`HumanMessage`, `AIMessage`, `ToolMessage`, plus the `SystemMessage` that
`call_model` prepends). -/
inductive Msg where
  | human (content : String)
  | ai (content : String) (toolCalls : List ToolCall)
  | tool (content : String) (toolCallId : String)
  | system (content : String)
deriving DecidableEq

/-- Discriminates `ToolMessage`s (the Python `isinstance(msg, ToolMessage)` test). -/
def Msg.isToolMsg : Msg → Bool
  | .tool _ _ => true
  | _ => false

/-- The system instruction `call_model` prepends to every model invocation. -/
def systemPromptText : String :=
  "Your are an helpful research agent capable of providing valuable research data using the tools provided. Give the following contents in JSON format. 1) Title of the research paper. 2) Summary of the research paper. 3) Reference of the research paper. 4) Citation of the research paper. 5) URL of the Research paper. Give all the relevant papers for the given query. Try to use as many tools as possible that are relevant for the given query domain. If Agriculture domain query is given, give content only relevant to it. Try to give 5 to 10 papers. Give only json formatted answers, do not give any other formats like list, tuple."

/-- The `SystemMessage` value built in `call_model`. -/
def systemMsg : Msg := .system systemPromptText

/-- The instructional wrapper prefix applied to every tool result in `call_model`. -/
def toolResultWrapper : String :=
  "Interpret this Tool result in proper format to the user: "

/-- Body of the `for msg in messages` loop in `call_model`: a `ToolMessage` is
appended as a wrapped `HumanMessage`, every other message is appended unchanged. -/
def processStep (acc : List Msg) (msg : Msg) : List Msg :=
  match msg with
  | .tool content _ => acc ++ [.human (toolResultWrapper ++ content)]
  | m => acc ++ [m]

/-- The `processed_messages` list `call_model` builds: starts with the system
message, then folds the loop body over the history. -/
def processedMessages (messages : List Msg) : List Msg :=
  messages.foldl processStep [systemMsg]

/-- One-message view of `processStep` (what the loop does to a single message). -/
def rewriteForModel : Msg → Msg
  | .tool content _ => .human (toolResultWrapper ++ content)
  | m => m

/-- The model invocation oracle: takes the processed message list, returns the
model output (content and tool calls) or raises (`Except.error`). -/
abbrev ModelInvoke := List Msg → Except String (String × List ToolCall)

/-- The fallback `AIMessage` synthesized in the `except` branch of `call_model`;
`now` stands for `datetime.now().strftime(...)`. -/
def fallbackMessage (now : String) : Msg :=
  .ai ("The current date and time is: " ++ now) []

/-- `call_model`: preprocess the history, invoke the model, append the response;
on any exception append the fallback message instead. -/
def call_model (now : String) (invoke : ModelInvoke) (messages : List Msg) : List Msg :=
  match invoke (processedMessages messages) with
  | .ok (content, toolCalls) => messages ++ [.ai content toolCalls]
  | .error _ => messages ++ [fallbackMessage now]

/-- `should_continue`: route to the tools node iff the last message carries
tool calls (only `AIMessage` has a `tool_calls` attribute). -/
def should_continue (messages : List Msg) : Bool :=
  match messages.getLast? with
  | some (.ai _ toolCalls) => !toolCalls.isEmpty
  | _ => false

/-- The prebuilt `ToolNode`: execute each pending tool call of the last message
in emission order and append one `ToolMessage` per call.  `exec` is the tool
dispatch oracle (`ToolNode` converts adapter errors to message content itself,
so it is total). -/
def tool_node (exec : ToolCall → String) (messages : List Msg) : List Msg :=
  match messages.getLast? with
  | some (.ai _ toolCalls) => messages ++ toolCalls.map (fun tc => .tool (exec tc) tc.id)
  | _ => messages

/-- Observable outcome of one graph run: the final message list and how many
times the `agent` (Deciding) and `tools` (Acting) nodes ran. -/
structure TurnTrace where
  messages : List Msg
  decidingSteps : Nat
  actingSteps : Nat
deriving DecidableEq

/-- The compiled workflow `START → agent → (tools → agent)* → END`.
`fuel` models langgraph's recursion limit (default 25); every claim below is
settled on runs that terminate well within it. -/
def agentLoop (now : String) (invoke : ModelInvoke) (exec : ToolCall → String) :
    Nat → List Msg → TurnTrace
  | 0, messages => ⟨messages, 0, 0⟩
  | fuel + 1, messages =>
    let afterModel := call_model now invoke messages
    if should_continue afterModel then
      let rest := agentLoop now invoke exec fuel (tool_node exec afterModel)
      ⟨rest.messages, rest.decidingSteps + 1, rest.actingSteps + 1⟩
    else
      ⟨afterModel, 1, 0⟩

/-- One `agent.invoke({"messages": [HumanMessage(userText)]}, config)` call from
`main.py`, returning the state saved back to the session store.

`AgentState` declares `messages: List[...]` with no reducer annotation, so the
graph channel has langgraph last-value semantics: applying the invoke input
*replaces* the checkpointed value.  The seed of the run is therefore exactly
`[HumanMessage(userText)]`, and `storedHistory` — the history the `MemorySaver`
checkpointer restored for this thread — does not reach the computation. -/
def runTurn (now : String) (invoke : ModelInvoke) (exec : ToolCall → String) (fuel : Nat)
    (storedHistory : List Msg) (userText : String) : List Msg :=
  (agentLoop now invoke exec fuel [Msg.human userText]).messages

/-! ## Theorems about the decision loop -/

lemma processStep_eq (acc : List Msg) (msg : Msg) :
    processStep acc msg = acc ++ [rewriteForModel msg] := by
  cases msg <;> rfl

lemma foldl_processStep (l : List Msg) (acc : List Msg) :
    l.foldl processStep acc = acc ++ l.map rewriteForModel := by
  induction l generalizing acc with
  | nil => simp
  | cons m t ih => simp [List.foldl_cons, processStep_eq, ih]

lemma rewriteForModel_not_tool (m : Msg) : (rewriteForModel m).isToolMsg = false := by
  cases m <;> rfl

/-- C5: the message sequence handed to the model is the system instruction
followed by the full ordered history in which each tool-result message is
replaced by a plain human message carrying the wrapper prefix concatenated with
the tool result content; no raw tool-result message reaches the model, and all
other message kinds pass through unchanged in their original order. -/
theorem call_model_rewrites_tool_results (messages : List Msg) (c cid : String)
    (tcs : List ToolCall) :
    processedMessages messages = systemMsg :: messages.map rewriteForModel
    ∧ (processedMessages messages).all (fun m => !m.isToolMsg) = true
    ∧ rewriteForModel (.tool c cid) = .human (toolResultWrapper ++ c)
    ∧ rewriteForModel (.human c) = .human c
    ∧ rewriteForModel (.ai c tcs) = .ai c tcs
    ∧ rewriteForModel (.system c) = .system c := by
  refine ⟨?_, ?_, rfl, rfl, rfl, rfl⟩
  · simpa [processedMessages] using foldl_processStep messages [systemMsg]
  · have h : processedMessages messages = systemMsg :: messages.map rewriteForModel := by
      simpa [processedMessages] using foldl_processStep messages [systemMsg]
    rw [h]
    simp only [List.all_cons, List.all_map, Bool.and_eq_true]
    constructor
    · rfl
    · rw [List.all_eq_true]
      intro m _
      simp [Function.comp, rewriteForModel_not_tool]

lemma getLast?_append_singleton (l : List Msg) (a : Msg) : (l ++ [a]).getLast? = some a :=
  List.getLast?_concat l

/-- C6: if the model output carries no tool-call requests, the loop performs
exactly one Deciding step, enters no Acting step, and that output message is
appended as the final answer of the turn. -/
theorem no_tool_calls_ends_turn (now : String) (invoke : ModelInvoke)
    (exec : ToolCall → String) (fuel : Nat) (messages : List Msg) (content : String)
    (h : invoke (processedMessages messages) = Except.ok (content, [])) :
    agentLoop now invoke exec (fuel + 1) messages
      = ⟨messages ++ [Msg.ai content []], 1, 0⟩
    ∧ (agentLoop now invoke exec (fuel + 1) messages).messages.getLast?
        = some (Msg.ai content []) := by
  have hcm : call_model now invoke messages = messages ++ [Msg.ai content []] := by
    unfold call_model; rw [h]
  have hsc : should_continue (messages ++ [Msg.ai content []]) = false := by
    unfold should_continue
    rw [getLast?_append_singleton]
    rfl
  have hloop : agentLoop now invoke exec (fuel + 1) messages
      = ⟨messages ++ [Msg.ai content []], 1, 0⟩ := by
    unfold agentLoop
    simp only [hcm, hsc, Bool.false_eq_true, if_false]
  exact ⟨hloop, by rw [hloop]; exact getLast?_append_singleton _ _⟩

theorem no_tool_calls_ends_turn_witness :
    agentLoop "2026-10-12 00:00:00" (fun _ => Except.ok ("done", [])) (fun _ => "") 1
        [Msg.human "hi"]
      = ⟨[Msg.human "hi"] ++ [Msg.ai "done" []], 1, 0⟩
    ∧ (agentLoop "2026-10-12 00:00:00" (fun _ => Except.ok ("done", [])) (fun _ => "") 1
        [Msg.human "hi"]).messages.getLast? = some (Msg.ai "done" []) :=
  no_tool_calls_ends_turn "2026-10-12 00:00:00" (fun _ => Except.ok ("done", []))
    (fun _ => "") 0 [Msg.human "hi"] "done" rfl

/-- C2: if the model invocation raises during a Deciding step, `call_model`
returns the existing history with the synthesized fallback `AIMessage`
appended; the fallback reports the current date and time (non-empty content),
carries no tool calls, and the turn terminates normally with it as the final
answer — one Deciding step, no Acting step, no retry. -/
theorem model_failure_turns_into_fallback (now : String) (invoke : ModelInvoke)
    (exec : ToolCall → String) (fuel : Nat) (messages : List Msg) (e : String)
    (h : invoke (processedMessages messages) = Except.error e) :
    call_model now invoke messages = messages ++ [fallbackMessage now]
    ∧ fallbackMessage now = Msg.ai ("The current date and time is: " ++ now) []
    ∧ ("The current date and time is: " ++ now).length > 0
    ∧ agentLoop now invoke exec (fuel + 1) messages
        = ⟨messages ++ [fallbackMessage now], 1, 0⟩ := by
  have hcm : call_model now invoke messages = messages ++ [fallbackMessage now] := by
    unfold call_model; rw [h]
  have hlen : ("The current date and time is: " ++ now).length > 0 := by
    rw [string_length_append]
    have h30 : ("The current date and time is: ").length = 30 := rfl
    omega
  have hsc : should_continue (messages ++ [fallbackMessage now]) = false := by
    unfold should_continue
    rw [getLast?_append_singleton]
    rfl
  refine ⟨hcm, rfl, hlen, ?_⟩
  unfold agentLoop
  simp only [hcm, hsc, Bool.false_eq_true, if_false]

theorem model_failure_turns_into_fallback_witness :
    call_model "2026-10-12 09:00:00" (fun _ => Except.error "quota exceeded")
        [Msg.human "hi"]
      = [Msg.human "hi"] ++ [fallbackMessage "2026-10-12 09:00:00"]
    ∧ fallbackMessage "2026-10-12 09:00:00"
        = Msg.ai ("The current date and time is: " ++ "2026-10-12 09:00:00") []
    ∧ ("The current date and time is: " ++ "2026-10-12 09:00:00").length > 0
    ∧ agentLoop "2026-10-12 09:00:00" (fun _ => Except.error "quota exceeded")
        (fun _ => "") 1 [Msg.human "hi"]
      = ⟨[Msg.human "hi"] ++ [fallbackMessage "2026-10-12 09:00:00"], 1, 0⟩ :=
  model_failure_turns_into_fallback "2026-10-12 09:00:00"
    (fun _ => Except.error "quota exceeded") (fun _ => "") 0 [Msg.human "hi"]
    "quota exceeded" rfl

/-! ## C1: the session store across turns -/

def demoInvokeFirst : ModelInvoke := fun _ => Except.ok ("first answer", [])

def demoInvokeSecond : ModelInvoke := fun _ => Except.ok ("second answer", [])

def demoExec : ToolCall → String := fun _ => ""

/-- Stored history after turn 1 on the fixed thread of `main.py`. -/
def turnOneStore : List Msg :=
  runTurn "t1" demoInvokeFirst demoExec 25 [] "first question"

/-- Stored history after turn 2 on the same thread. -/
def turnTwoStore : List Msg :=
  runTurn "t2" demoInvokeSecond demoExec 25 turnOneStore "second question"

/-- C1 fails on the code: `AgentState.messages` has no reducer, so the invoke
input replaces the checkpointed history.  After a second turn on the same
session the first turn's messages are gone: the store is not append-only
across turns and its length did not grow by 2. -/
theorem history_not_preserved_across_turns :
    turnOneStore = [Msg.human "first question", Msg.ai "first answer" []]
    ∧ turnTwoStore = [Msg.human "second question", Msg.ai "second answer" []]
    ∧ Msg.human "first question" ∉ turnTwoStore
    ∧ turnTwoStore.length < turnOneStore.length + 2 := by
  refine ⟨rfl, rfl, ?_, ?_⟩ <;> decide

/-! ## utils.py: shared helpers -/

def hexDigitChar (n : Nat) : Char :=
  if n < 10 then Char.ofNat (48 + n) else Char.ofNat (55 + n)

/-- Models `urllib.parse.quote_plus` on ASCII text: a space becomes `+`,
alphanumerics and `_ . - ~` pass through, everything else is percent-encoded.
(Python additionally UTF-8-encodes code points above 127 byte by byte; no
claim depends on that case.) -/
def quotePlusChar (c : Char) : String :=
  if c = ' ' then "+"
  else if c.isAlphanum ∨ c = '_' ∨ c = '.' ∨ c = '-' ∨ c = '~' then String.singleton c
  else "%" ++ String.singleton (hexDigitChar (c.toNat / 16 % 16))
    ++ String.singleton (hexDigitChar (c.toNat % 16))

def quotePlus (s : String) : String :=
  String.join (s.data.map quotePlusChar)

def jsonQuote (s : String) : String := "\"" ++ s ++ "\""

def jsonStringArray (l : List String) : String :=
  "[" ++ String.intercalate ", " (l.map jsonQuote) ++ "]"

/-! ## utils.py: search_arxiv -/

/-- One feedparser entry of the arXiv Atom response.  `title`, `summary` and
`link` are accessed unguarded in the source; `authors`, `published` and
`arxiv_doi` are guarded by `hasattr` (`none` models the attribute missing);
`tags` is guarded by `hasattr` and truthiness (`[]` models both). -/
structure ArxivEntry where
  title : String
  summary : String
  link : String
  authors : Option (List String)
  published : Option String
  tags : List String
  arxiv_doi : Option String
deriving DecidableEq

/-- The parsed feed (`feedparser.parse(response.content)`). -/
structure ArxivFeed where
  entries : List ArxivEntry
deriving DecidableEq

/-- The `paper_info` dict built per entry in `search_arxiv`. -/
structure ArxivPaper where
  title : String
  authors : List String
  summary : String
  url : String
  published : String
  categories : String
  doi : String
deriving DecidableEq

def arxivPaperInfo (entry : ArxivEntry) : ArxivPaper :=
  { title := entry.title
    authors := entry.authors.getD []
    summary := entry.summary
    url := entry.link
    published := entry.published.getD ""
    categories := entry.tags.headD ""
    doi := entry.arxiv_doi.getD "" }

/-- The `results` list `search_arxiv` accumulates before `json.dumps`. -/
def arxivRecords (feed : ArxivFeed) : List ArxivPaper :=
  feed.entries.map arxivPaperInfo

/-- Serialization of one arXiv record (models `json.dumps` up to whitespace
and string escaping, neither of which any claim depends on). -/
def arxivPaperJson (p : ArxivPaper) : String :=
  "\x7b\"title\": " ++ jsonQuote p.title
  ++ ", \"authors\": " ++ jsonStringArray p.authors
  ++ ", \"summary\": " ++ jsonQuote p.summary
  ++ ", \"url\": " ++ jsonQuote p.url
  ++ ", \"published\": " ++ jsonQuote p.published
  ++ ", \"categories\": " ++ jsonQuote p.categories
  ++ ", \"doi\": " ++ jsonQuote p.doi ++ "\x7d"

def arxivJson (papers : List ArxivPaper) : String :=
  "[" ++ String.intercalate ", " (papers.map arxivPaperJson) ++ "]"

/-- The request URL `search_arxiv` builds: the raw query is interpolated into
the f-string with no validation and no URL-encoding. -/
def arxivRequestUrl (query : String) (maxResults : Int) : String :=
  "http://export.arxiv.org/api/query?" ++ "search_query=all:" ++ query
  ++ "&start=0&max_results=" ++ toString maxResults
  ++ "&sortBy=lastUpdatedDate&sortOrder=descending"

/-- `search_arxiv`: issue the request, map each feed entry to a record, dump to
JSON; any exception from the HTTP/parsing layer is caught and returned as an
error string.  The second component is the list of request URLs issued. -/
def search_arxiv (http : String → Except String ArxivFeed) (query : String)
    (maxResults : Int) : String × List String :=
  match http (arxivRequestUrl query maxResults) with
  | .ok feed => (arxivJson (arxivRecords feed), [arxivRequestUrl query maxResults])
  | .error e => ("Error searching arXiv: " ++ e, [arxivRequestUrl query maxResults])

/-! ## utils.py: search_pubmed -/

/-- The exception classes distinguished by the `except` clauses of
`search_pubmed` (`requests.exceptions.RequestException`,
`json.JSONDecodeError`, any other `Exception`). -/
inductive PyErr where
  | requestErr (msg : String)
  | jsonDecodeErr (msg : String)
  | otherErr (msg : String)
deriving DecidableEq

/-- The `esearchresult` object of the esearch JSON (`idlist` may be absent). -/
structure EsearchResult where
  idlist : Option (List String)
deriving DecidableEq

/-- The esearch JSON body (`esearchresult` may be absent). -/
structure EsearchData where
  esearchresult : Option EsearchResult
deriving DecidableEq

/-- One `AbstractText` element: its `Label` attribute (`''` when absent, per
`elem.get('Label', '')`) and its joined `itertext()`. -/
structure AbstractPart where
  label : String
  text : String
deriving DecidableEq

/-- One `Author` element: the three name sub-elements, each possibly absent. -/
structure PubmedAuthor where
  lastName : Option String
  foreName : Option String
  initials : Option String
deriving DecidableEq

/-- One `PubmedArticle` element of the efetch XML, with each `find` result
possibly absent. -/
structure PubmedArticle where
  articleTitle : Option String
  abstractTexts : List AbstractPart
  pmid : Option String
  authors : List PubmedAuthor
  journalTitle : Option String
  journalISOAbbreviation : Option String
  pubYear : Option String
  doi : Option String
deriving DecidableEq

/-- The `paper_info` dict built per article in `search_pubmed`. -/
structure PubmedPaper where
  title : String
  authors : List String
  abstract : String
  pmid : String
  journal : String
  year : String
  doi : String
  pubmed_url : String
  doi_url : String
deriving DecidableEq

/-- Body of the abstract-assembly loop: label and text both non-empty gives
`"label: text"`, text alone gives `text`, otherwise the part contributes
nothing. -/
def abstractPartText (part : AbstractPart) : Option String :=
  let text := pyStrip part.text
  if part.label ≠ "" ∧ text ≠ "" then some (part.label ++ ": " ++ text)
  else if text ≠ "" then some text
  else none

def pubmedAbstractText (parts : List AbstractPart) : String :=
  String.intercalate " " (parts.filterMap abstractPartText)

/-- The assembled abstract, with the `"No abstract available"` placeholder when
it is empty. -/
def pubmedAbstractOrPlaceholder (parts : List AbstractPart) : String :=
  let t := pubmedAbstractText parts
  if t = "" then "No abstract available" else t

/-- The truncation step of `search_pubmed`:
`if len(abstract_text) > 500: abstract_text = abstract_text[:500] + "..."`. -/
def truncateAbstract (s : String) : String :=
  if s.length > 500 then pyTake s 500 ++ "..." else s

/-- The author-loop body: an author with no `LastName` element contributes
nothing; otherwise forename, then initials, then the last name alone. -/
def pubmedAuthorName (author : PubmedAuthor) : Option String :=
  match author.lastName with
  | none => none
  | some lastname =>
    match author.foreName with
    | some forename => some (pyStrip forename ++ " " ++ pyStrip lastname)
    | none =>
      match author.initials with
      | some inits => some (pyStrip inits ++ " " ++ pyStrip lastname)
      | none => some (pyStrip lastname)

/-- The full (uncapped) `authors` list assembled by the loop. -/
def pubmedAuthors (authors : List PubmedAuthor) : List String :=
  authors.filterMap pubmedAuthorName

def pubmedPaperInfo (article : PubmedArticle) : PubmedPaper :=
  let title := match article.articleTitle with
    | some t => pyStrip t
    | none => "No title"
  let pmid := (article.pmid.map pyStrip).getD ""
  let journal := match article.journalTitle with
    | some j => pyStrip j
    | none =>
      match article.journalISOAbbreviation with
      | some j => pyStrip j
      | none => ""
  let doi := (article.doi.map pyStrip).getD ""
  { title := title
    authors := (pubmedAuthors article.authors).take 5
    abstract := truncateAbstract (pubmedAbstractOrPlaceholder article.abstractTexts)
    pmid := pmid
    journal := journal
    year := (article.pubYear.map pyStrip).getD ""
    doi := doi
    pubmed_url := if pmid ≠ "" then "https://pubmed.ncbi.nlm.nih.gov/" ++ pmid ++ "/" else ""
    doi_url := if doi ≠ "" then "https://doi.org/" ++ doi else "" }

def pubmedErrText : PyErr → String
  | .requestErr m => "Network error when accessing PubMed: " ++ m
  | .jsonDecodeErr m => "Error parsing JSON response: " ++ m
  | .otherErr m => "Unexpected error searching PubMed: " ++ m

/-- The esearch URL: the query is URL-encoded with `quote_plus` before the
f-string is built. -/
def pubmedSearchUrl (query : String) (maxResults : Int) : String :=
  "https://eutils.ncbi.nlm.nih.gov/entrez/eutils/" ++ "esearch.fcgi?db=pubmed&term="
  ++ quotePlus query ++ "&retmax=" ++ toString maxResults ++ "&sort=date&retmode=json"

def pubmedFetchUrl (ids : List String) : String :=
  "https://eutils.ncbi.nlm.nih.gov/entrez/eutils/" ++ "efetch.fcgi?db=pubmed&id="
  ++ String.intercalate "," ids ++ "&retmode=xml"

def pubmedPaperJson (p : PubmedPaper) : String :=
  "\x7b\"title\": " ++ jsonQuote p.title
  ++ ", \"authors\": " ++ jsonStringArray p.authors
  ++ ", \"abstract\": " ++ jsonQuote p.abstract
  ++ ", \"pmid\": " ++ jsonQuote p.pmid
  ++ ", \"journal\": " ++ jsonQuote p.journal
  ++ ", \"year\": " ++ jsonQuote p.year
  ++ ", \"doi\": " ++ jsonQuote p.doi
  ++ ", \"pubmed_url\": " ++ jsonQuote p.pubmed_url
  ++ ", \"doi_url\": " ++ jsonQuote p.doi_url ++ "\x7d"

def pubmedJson (papers : List PubmedPaper) : String :=
  "[" ++ String.intercalate ", " (papers.map pubmedPaperJson) ++ "]"

/-- The part of `search_pubmed` after a successful esearch response: the
response-structure checks, the efetch request, XML parsing, and record
assembly.  The second component lists the further request URLs issued. -/
def pubmedAfterSearch (efetchHttp : String → Except PyErr (Except String (List PubmedArticle)))
    (searchData : EsearchData) : String × List String :=
  match searchData.esearchresult with
  | none => ("Invalid response from PubMed search API", [])
  | some esearchResult =>
    match esearchResult.idlist with
    | none => ("No results found in PubMed", [])
    | some ids =>
      if ids.isEmpty then ("No results found in PubMed", [])
      else
        let fetchUrl := pubmedFetchUrl ids
        match efetchHttp fetchUrl with
        | .error e => (pubmedErrText e, [fetchUrl])
        | .ok (.error parseMsg) =>
          ("Error parsing XML response: " ++ parseMsg, [fetchUrl])
        | .ok (.ok articles) =>
          let results := articles.map pubmedPaperInfo
          if results.isEmpty then ("No articles found in the response", [fetchUrl])
          else (pubmedJson results, [fetchUrl])

/-- `search_pubmed`: two-step esearch/efetch protocol.  `esearchHttp` models
the first GET plus `response.json()`; `efetchHttp` models the second GET, its
inner `Except` the `ET.fromstring` parse (whose `ParseError` is caught by the
dedicated inner handler); an outer `Except.error` models any raised exception,
mapped to the matching `except` clause text.  The second component is the list
of request URLs issued; the esearch URL is always the first one. -/
def search_pubmed (esearchHttp : String → Except PyErr EsearchData)
    (efetchHttp : String → Except PyErr (Except String (List PubmedArticle)))
    (query : String) (maxResults : Int) : String × List String :=
  match esearchHttp (pubmedSearchUrl query maxResults) with
  | .error e => (pubmedErrText e, [pubmedSearchUrl query maxResults])
  | .ok searchData =>
    ((pubmedAfterSearch efetchHttp searchData).1,
      pubmedSearchUrl query maxResults :: (pubmedAfterSearch efetchHttp searchData).2)

/-! ## utils.py: search_semantic_scholar -/

/-- One author object of the Semantic Scholar response
(`author.get('name', 'Unknown')`). -/
structure S2Author where
  name : Option String
deriving DecidableEq

/-- The `journal` object (`.get('name', '')`). -/
structure S2Journal where
  name : Option String
deriving DecidableEq

/-- One raw paper object of the Semantic Scholar `data` array; every field is
read with `.get`, so each may be absent (a JSON `null` value behaves like an
absent key for every use the source makes of it). `externalIds` is a string
dictionary. -/
structure S2PaperRaw where
  title : Option String
  authors : Option (List S2Author)
  abstract : Option String
  year : Option Int
  citationCount : Option Int
  url : Option String
  venue : Option String
  externalIds : Option (List (String × String))
  publicationDate : Option String
  journal : Option S2Journal
deriving DecidableEq

/-- Python `dict.get(key, default)` on a string dictionary. -/
def dictGetD (d : List (String × String)) (key dflt : String) : String :=
  match d.lookup key with
  | some v => v
  | none => dflt

/-- The `paper_info` dict built per paper in `search_semantic_scholar`.
`year` is `none` when the Python value is the falsy-`or` fallback `''`. -/
structure S2Paper where
  title : String
  authors : List String
  abstract : String
  year : Option Int
  publication_date : String
  citation_count : Int
  venue : String
  url : String
  doi : String
  arxiv_id : String
deriving DecidableEq

/-- The abstract pipeline: `''` default, truncate to 497 + `"..."` when longer
than 500, then the `or 'No abstract available'` fallback. -/
def s2Abstract (abstractRaw : Option String) : String :=
  let abs0 := abstractRaw.getD ""
  let abs1 := if abs0 ≠ "" ∧ abs0.length > 500 then pyTake abs0 497 ++ "..." else abs0
  if abs1 = "" then "No abstract available" else abs1

/-- The venue expression.  Python parses it as
`(venue or journal.get('name','')) if paper.get('journal') else ''`:
the conditional has lowest precedence, so with no `journal` object the venue
is `''` regardless of the `venue` field. -/
def s2Venue (p : S2PaperRaw) : String :=
  match p.journal with
  | some journal =>
    let v := p.venue.getD ""
    if v ≠ "" then v else journal.name.getD ""
  | none => ""

def s2PaperInfo (p : S2PaperRaw) : S2Paper :=
  let externalIds := p.externalIds.getD []
  { title := p.title.getD "No title available"
    authors := (p.authors.getD []).map (fun a => a.name.getD "Unknown")
    abstract := s2Abstract p.abstract
    year := match p.year with
      | some y => if y ≠ 0 then some y else none
      | none => none
    publication_date := p.publicationDate.getD ""
    citation_count := p.citationCount.getD 0
    venue := s2Venue p
    url := p.url.getD ""
    doi := dictGetD externalIds "DOI" ""
    arxiv_id := dictGetD externalIds "ArXiv" "" }

/-- One entry of the provider `data` array as seen by the per-paper `try`
block: `.ok` is a well-formed paper, `.error` models an entry whose
normalization raises (the dynamic-typing failures the `except` catches). -/
abbrev S2Entry := Except String S2PaperRaw

/-- The per-paper loop body: a raising entry is skipped (`continue`), a
well-formed one is normalized and appended. -/
def s2Normalize : S2Entry → Option S2Paper
  | .error _ => none
  | .ok p => some (s2PaperInfo p)

/-- The success envelope `search_semantic_scholar` returns
(a different shape from the other adapters). -/
structure S2Envelope where
  query : String
  total_results : Nat
  results : List S2Paper
deriving DecidableEq

/-- The result-processing loop plus envelope construction:
`total_results = len(results)` counts only successfully normalized papers. -/
def s2ProcessData (query : String) (entries : List S2Entry) : S2Envelope :=
  let results := entries.filterMap s2Normalize
  { query := query, total_results := results.length, results := results }

/-- The request `search_semantic_scholar` sends: stripped query, clamped
limit, fixed field set. -/
structure S2Request where
  query : String
  limit : Int
  fields : String
deriving DecidableEq

/-- Outcome of the single `requests.get`: one of the distinguished exception
classes, or a response with a status code, body text, and parsed JSON
(`Except.error` models `json.JSONDecodeError`; the `Option` models the
`'data' not in data` check, with `some []` the falsy `data['data']`). -/
inductive S2Outcome where
  | timeoutErr (msg : String)
  | connectionErr (msg : String)
  | requestErr (msg : String)
  | otherErr (msg : String)
  | response (status : Nat) (text : String) (body : Except String (Option (List S2Entry)))

def s2FieldsParam : String :=
  "title,authors,abstract,year,citationCount,url,venue,externalIds,publicationDate,journal"

/-- `json.dumps({"error": msg})` up to whitespace. -/
def jsonErrString (msg : String) : String :=
  "\x7b\"error\": " ++ jsonQuote msg ++ "\x7d"

/-- The empty-result envelope (original, unstripped query echoed back). -/
def s2NoResultsJson (query : String) : String :=
  "\x7b\"message\": \"No results found in Semantic Scholar\", \"query\": "
  ++ jsonQuote query ++ ", \"results\": []\x7d"

def s2PaperJson (p : S2Paper) : String :=
  "\x7b\"title\": " ++ jsonQuote p.title
  ++ ", \"authors\": " ++ jsonStringArray p.authors
  ++ ", \"abstract\": " ++ jsonQuote p.abstract
  ++ ", \"year\": " ++ (match p.year with | some y => toString y | none => jsonQuote "")
  ++ ", \"publication_date\": " ++ jsonQuote p.publication_date
  ++ ", \"citation_count\": " ++ toString p.citation_count
  ++ ", \"venue\": " ++ jsonQuote p.venue
  ++ ", \"url\": " ++ jsonQuote p.url
  ++ ", \"doi\": " ++ jsonQuote p.doi
  ++ ", \"arxiv_id\": " ++ jsonQuote p.arxiv_id ++ "\x7d"

def s2EnvelopeJson (env : S2Envelope) : String :=
  "\x7b\"query\": " ++ jsonQuote env.query
  ++ ", \"total_results\": " ++ toString env.total_results
  ++ ", \"results\": [" ++ String.intercalate ", " (env.results.map s2PaperJson) ++ "]\x7d"

/-- Everything `search_semantic_scholar` does with the `requests.get` outcome:
the distinguished `except` clauses, the 429 and non-200 branches, the JSON
decode failure, the missing/empty `data` branch, and the success envelope. -/
def s2HandleOutcome (query : String) : S2Outcome → String
  | .timeoutErr _ => jsonErrString "Request timeout. Please try again."
  | .connectionErr _ => jsonErrString "Connection error. Please check your internet connection."
  | .requestErr m => jsonErrString ("Request error: " ++ m)
  | .otherErr m => jsonErrString ("Unexpected error: " ++ m)
  | .response status text body =>
    if status = 429 then
      jsonErrString "Rate limit exceeded. Please wait before making another request."
    else if status ≠ 200 then
      jsonErrString ("HTTP " ++ toString status ++ ": " ++ text)
    else
      match body with
      | .error _ => jsonErrString "Invalid JSON response from API"
      | .ok none => s2NoResultsJson query
      | .ok (some entries) =>
        if entries.isEmpty then s2NoResultsJson query
        else s2EnvelopeJson (s2ProcessData query entries)

/-- `search_semantic_scholar`: validate the query is non-empty (no request is
issued otherwise), clamp `max_results` to `[1, 100]`, issue the request and
handle its outcome.  The second component is the list of requests issued. -/
def search_semantic_scholar (http : S2Request → S2Outcome) (query : String)
    (maxResults : Int) : String × List S2Request :=
  if pyStrip query = "" then (jsonErrString "Query cannot be empty", [])
  else
    let req : S2Request :=
      { query := pyStrip query, limit := min (max 1 maxResults) 100, fields := s2FieldsParam }
    (s2HandleOutcome query (http req), [req])

/-! ## utils.py: search_google_scholar -/

/-- One raw result of `scholarly.search_pubs`; every field is read with
`.get` and a default. -/
structure GsPaperRaw where
  title : Option String
  author : Option (List String)
  abstract : Option String
  year : Option String
  numCitations : Option Int
  venue : Option String
  pubUrl : Option String
  scholarUrl : Option String
deriving DecidableEq

/-- The `paper_info` dict built per result in `search_google_scholar`. -/
structure GsPaper where
  title : String
  authors : List String
  abstract : String
  year : String
  citation_count : Int
  venue : String
  url : String
  scholar_url : String
deriving DecidableEq

def gsPaperInfo (p : GsPaperRaw) : GsPaper :=
  { title := p.title.getD "No title"
    authors := p.author.getD []
    abstract := p.abstract.getD "No abstract available"
    year := p.year.getD ""
    citation_count := p.numCitations.getD 0
    venue := p.venue.getD ""
    url := p.pubUrl.getD ""
    scholar_url := p.scholarUrl.getD "" }

def gsPaperJson (p : GsPaper) : String :=
  "\x7b\"title\": " ++ jsonQuote p.title
  ++ ", \"authors\": " ++ jsonStringArray p.authors
  ++ ", \"abstract\": " ++ jsonQuote p.abstract
  ++ ", \"year\": " ++ jsonQuote p.year
  ++ ", \"citation_count\": " ++ toString p.citation_count
  ++ ", \"venue\": " ++ jsonQuote p.venue
  ++ ", \"url\": " ++ jsonQuote p.url
  ++ ", \"scholar_url\": " ++ jsonQuote p.scholar_url ++ "\x7d"

def gsJson (papers : List GsPaper) : String :=
  "[" ++ String.intercalate ", " (papers.map gsPaperJson) ++ "]"

/-- `search_google_scholar`: `scholarlyLib = none` models the `ImportError`
branch (library not installed); otherwise `search_pubs` either raises or
yields results, of which the `enumerate`/`break` loop consumes the first
`max_results` (none when `max_results ≤ 0`, as `i >= max_results` breaks
immediately). -/
def search_google_scholar (scholarlyLib : Option (String → Except String (List GsPaperRaw)))
    (query : String) (maxResults : Int) : String :=
  match scholarlyLib with
  | none => "Error: scholarly library not installed. Install with: pip install scholarly"
  | some searchPubs =>
    match searchPubs query with
    | .error e => "Error searching Google Scholar: " ++ e
    | .ok papers => gsJson ((papers.take maxResults.toNat).map gsPaperInfo)

/-! ## Theorems about the adapters -/

lemma pyTake_length (s : String) (n : Nat) : (pyTake s n).length = min n s.length := by
  show (s.data.take n).length = min n s.data.length
  exact List.length_take n s.data

lemma truncateAbstract_le (s : String) : (truncateAbstract s).length ≤ 503 := by
  unfold truncateAbstract
  by_cases h : s.length > 500
  · rw [if_pos h, string_length_append, pyTake_length]
    have h3 : ("...").length = 3 := rfl
    omega
  · rw [if_neg h]
    omega

lemma truncateAbstract_long (s : String) (h : s.length > 500) :
    truncateAbstract s = pyTake s 500 ++ "..."
    ∧ (truncateAbstract s).length = 503
    ∧ "...".data <:+ (truncateAbstract s).data := by
  have heq : truncateAbstract s = pyTake s 500 ++ "..." := by
    unfold truncateAbstract
    rw [if_pos h]
  refine ⟨heq, ?_, ?_⟩
  · rw [heq, string_length_append, pyTake_length]
    have h3 : ("...").length = 3 := rfl
    omega
  · rw [heq, string_data_append]
    exact List.suffix_append _ _

lemma s2Abstract_le (a : Option String) : (s2Abstract a).length ≤ 500 := by
  simp only [s2Abstract]
  by_cases h : (a.getD "") ≠ "" ∧ (a.getD "").length > 500
  · rw [if_pos h]
    have hlen : (pyTake (a.getD "") 497 ++ "...").length = 500 := by
      rw [string_length_append, pyTake_length]
      have h3 : ("...").length = 3 := rfl
      omega
    by_cases h2 : (pyTake (a.getD "") 497 ++ "...") = ""
    · rw [if_pos h2]
      decide
    · rw [if_neg h2]
      omega
  · rw [if_neg h]
    by_cases h2 : (a.getD "") = ""
    · rw [if_pos h2]
      decide
    · rw [if_neg h2]
      push_neg at h
      have := h h2
      omega

lemma string_ne_empty_of_length_pos (s : String) (h : 0 < s.length) : s ≠ "" := by
  intro he
  rw [he] at h
  exact absurd h (by decide)

lemma s2Abstract_long (s : String) (h : s.length > 500) :
    s2Abstract (some s) = pyTake s 497 ++ "..."
    ∧ "...".data <:+ (s2Abstract (some s)).data := by
  have hne : s ≠ "" := string_ne_empty_of_length_pos s (by omega)
  have hres : (pyTake s 497 ++ "...").length = 500 := by
    rw [string_length_append, pyTake_length]
    have h3 : ("...").length = 3 := rfl
    omega
  have hresne : (pyTake s 497 ++ "...") ≠ "" :=
    string_ne_empty_of_length_pos _ (by omega)
  have hc : s ≠ "" ∧ s.length > 500 := ⟨hne, h⟩
  have heq : s2Abstract (some s) = pyTake s 497 ++ "..." := by
    simp only [s2Abstract, Option.getD_some]
    rw [if_pos hc, if_neg hresne]
  refine ⟨heq, ?_⟩
  rw [heq, string_data_append]
  exact List.suffix_append _ _

/-- C7 fails on the code for `search_arxiv`: the entry summary is stored in
the record verbatim, so a 504-character provider summary yields a
504-character stored summary with no ellipsis marker. -/
theorem arxiv_summary_not_truncated :
    (arxivRecords ⟨[{ title := "T",
                      summary := String.mk (List.replicate 504 'a'),
                      link := "http://example.org/1",
                      authors := none, published := none, tags := [],
                      arxiv_doi := none }]⟩).map (fun p => p.summary.length)
      = [504]
    ∧ 503 < 504
    ∧ (arxivRecords ⟨[{ title := "T",
                        summary := String.mk (List.replicate 504 'a'),
                        link := "http://example.org/1",
                        authors := none, published := none, tags := [],
                        arxiv_doi := none }]⟩).map
          (fun p => ("...").data.isSuffixOf p.summary.data)
      = [false] := by
  refine ⟨?_, by omega, ?_⟩ <;> decide

def demoArticle : PubmedArticle :=
  { articleTitle := some "A title"
    abstractTexts := [⟨"", "Some text"⟩]
    pmid := some "123"
    authors := [⟨some "Smith", some "John", none⟩]
    journalTitle := some "J"
    journalISOAbbreviation := none
    pubYear := some "2020"
    doi := none }

def demoS2Raw : S2PaperRaw :=
  { title := some "T", authors := none, abstract := some "hello", year := some 2020,
    citationCount := some 3, url := none, venue := none, externalIds := none,
    publicationDate := none, journal := none }

def demoLongAbstract : String := String.mk (List.replicate 501 'b')

/-- C7 (amended): `search_pubmed` and `search_semantic_scholar` bound the
stored abstract — pubmed to at most 503 characters (500 plus the marker),
semantic scholar to at most 500 (497 plus the marker) — and whenever the
assembled abstract exceeded 500 characters the stored field ends with the
`"..."` marker; `search_arxiv` and `search_google_scholar` store the
provider text verbatim with no bound. -/
theorem abstract_truncation_bounds (article : PubmedArticle) (p : S2PaperRaw) (s : String)
    (a : Option String) (e : ArxivEntry) (g : GsPaperRaw) :
    (pubmedPaperInfo article).abstract
      = truncateAbstract (pubmedAbstractOrPlaceholder article.abstractTexts)
    ∧ (truncateAbstract s).length ≤ 503
    ∧ (s.length > 500 →
        truncateAbstract s = pyTake s 500 ++ "..."
        ∧ (truncateAbstract s).length = 503
        ∧ "...".data <:+ (truncateAbstract s).data)
    ∧ (s2PaperInfo p).abstract = s2Abstract p.abstract
    ∧ (s2Abstract a).length ≤ 500
    ∧ (s.length > 500 →
        s2Abstract (some s) = pyTake s 497 ++ "..."
        ∧ "...".data <:+ (s2Abstract (some s)).data)
    ∧ (arxivPaperInfo e).summary = e.summary
    ∧ (gsPaperInfo g).abstract = g.abstract.getD "No abstract available" := by
  exact ⟨rfl, truncateAbstract_le s, truncateAbstract_long s, rfl, s2Abstract_le a,
    s2Abstract_long s, rfl, rfl⟩

theorem abstract_truncation_bounds_witness :
    demoLongAbstract.length > 500
    ∧ (truncateAbstract demoLongAbstract).length = 503
    ∧ "...".data <:+ (truncateAbstract demoLongAbstract).data
    ∧ "...".data <:+ (s2Abstract (some demoLongAbstract)).data
    ∧ (s2Abstract (some "hello")).length ≤ 500
    ∧ (pubmedPaperInfo demoArticle).abstract
        = truncateAbstract (pubmedAbstractOrPlaceholder demoArticle.abstractTexts) := by
  have hlen : demoLongAbstract.length > 500 := by decide
  have h := abstract_truncation_bounds demoArticle demoS2Raw demoLongAbstract (some "hello")
    { title := "t", summary := "s", link := "l", authors := none, published := none,
      tags := [], arxiv_doi := none }
    { title := none, author := none, abstract := none, year := none, numCitations := none,
      venue := none, pubUrl := none, scholarUrl := none }
  exact ⟨hlen, (h.2.2.1 hlen).2.1, (h.2.2.1 hlen).2.2, (h.2.2.2.2.2.1 hlen).2,
    h.2.2.2.2.1, h.1⟩

/-- C8: the limit sent to the Semantic Scholar endpoint is
`min(max(1, max_results), 100)`, which always lies in `[1, 100]` whatever
integer the caller supplied. -/
theorem s2_limit_clamped (http : S2Request → S2Outcome) (query : String) (maxResults : Int)
    (h : pyStrip query ≠ "") :
    (search_semantic_scholar http query maxResults).2
      = [{ query := pyStrip query, limit := min (max 1 maxResults) 100,
           fields := s2FieldsParam }]
    ∧ 1 ≤ min (max 1 maxResults) 100
    ∧ min (max 1 maxResults) 100 ≤ 100 := by
  refine ⟨?_, by omega, by omega⟩
  unfold search_semantic_scholar
  rw [if_neg h]

theorem s2_limit_clamped_witness :
    (search_semantic_scholar (fun _ => S2Outcome.otherErr "down") "q" (-5)).2
      = [{ query := pyStrip "q", limit := min (max 1 (-5)) 100, fields := s2FieldsParam }]
    ∧ 1 ≤ min (max 1 (-5 : Int)) 100
    ∧ min (max 1 (-5 : Int)) 100 ≤ 100 :=
  s2_limit_clamped (fun _ => S2Outcome.otherErr "down") "q" (-5) (by decide)

/-- C3 fails on the code: `search_arxiv` neither validates nor URL-encodes
the query; with an empty query it still issues the request (whose search
term is empty) and returns a plain `[]` dump, not an error-marked string. -/
theorem arxiv_accepts_empty_query :
    (search_arxiv (fun _ => Except.ok ⟨[]⟩) "" 10).2 = [arxivRequestUrl "" 10]
    ∧ arxivRequestUrl "" 10
        = "http://export.arxiv.org/api/query?search_query=all:&start=0&max_results=10&sortBy=lastUpdatedDate&sortOrder=descending"
    ∧ (search_arxiv (fun _ => Except.ok ⟨[]⟩) "" 10).1 = "[]"
    ∧ pyStartsWith "Error" (search_arxiv (fun _ => Except.ok ⟨[]⟩) "" 10).1 = false := by
  refine ⟨rfl, ?_, ?_, ?_⟩ <;> decide

/-- C3 (amended): only `search_semantic_scholar` validates the query — on an
empty or whitespace-only query it returns the error-marked string and issues
no request; `search_pubmed` URL-encodes the query with `quote_plus` before
building its request (always the first one issued); `search_arxiv`
interpolates the raw query unvalidated and unencoded and always issues the
request. -/
theorem query_validation_amended (http : S2Request → S2Outcome) (query : String) (n : Int)
    (esearchHttp : String → Except PyErr EsearchData)
    (efetchHttp : String → Except PyErr (Except String (List PubmedArticle)))
    (arxivHttp : String → Except String ArxivFeed) (q2 : String) (m : Int)
    (h : pyStrip query = "") :
    search_semantic_scholar http query n = (jsonErrString "Query cannot be empty", [])
    ∧ (search_pubmed esearchHttp efetchHttp q2 m).2.head? = some (pubmedSearchUrl q2 m)
    ∧ pubmedSearchUrl q2 m
        = "https://eutils.ncbi.nlm.nih.gov/entrez/eutils/" ++ "esearch.fcgi?db=pubmed&term="
          ++ quotePlus q2 ++ "&retmax=" ++ toString m ++ "&sort=date&retmode=json"
    ∧ (search_arxiv arxivHttp q2 m).2 = [arxivRequestUrl q2 m] := by
  refine ⟨?_, ?_, rfl, ?_⟩
  · unfold search_semantic_scholar
    rw [if_pos h]
  · unfold search_pubmed
    cases hes : esearchHttp (pubmedSearchUrl q2 m) <;> rfl
  · unfold search_arxiv
    cases hax : arxivHttp (arxivRequestUrl q2 m) <;> rfl

theorem query_validation_amended_witness :
    search_semantic_scholar (fun _ => S2Outcome.otherErr "down") " " 10
      = (jsonErrString "Query cannot be empty", [])
    ∧ (search_pubmed (fun _ => Except.error (PyErr.otherErr "down"))
        (fun _ => Except.error (PyErr.otherErr "down")) "a b" 5).2.head?
      = some (pubmedSearchUrl "a b" 5)
    ∧ pubmedSearchUrl "a b" 5
      = "https://eutils.ncbi.nlm.nih.gov/entrez/eutils/" ++ "esearch.fcgi?db=pubmed&term="
        ++ quotePlus "a b" ++ "&retmax=" ++ toString (5 : Int) ++ "&sort=date&retmode=json"
    ∧ (search_arxiv (fun _ => Except.error "down") "a b" 5).2 = [arxivRequestUrl "a b" 5] :=
  query_validation_amended (fun _ => S2Outcome.otherErr "down") " " 10
    (fun _ => Except.error (PyErr.otherErr "down"))
    (fun _ => Except.error (PyErr.otherErr "down"))
    (fun _ => Except.error "down") "a b" 5 (by decide)

def esearchOkOne : String → Except PyErr EsearchData :=
  fun _ => Except.ok ⟨some ⟨some ["1"]⟩⟩

/-- C4: every failure of the external HTTP/parsing layer is converted by the
adapter that observes it into a returned error string — each distinguished
exception class maps to its documented message — so no exception escapes an
adapter boundary and the Acting step only ever sees strings. -/
theorem adapters_absorb_exceptions (e : String) (q : String) (n : Int)
    (efetchHttp : String → Except PyErr (Except String (List PubmedArticle))) :
    (search_arxiv (fun _ => Except.error e) q n).1 = "Error searching arXiv: " ++ e
    ∧ (search_pubmed (fun _ => Except.error (PyErr.requestErr e)) efetchHttp q n).1
        = "Network error when accessing PubMed: " ++ e
    ∧ (search_pubmed (fun _ => Except.error (PyErr.jsonDecodeErr e)) efetchHttp q n).1
        = "Error parsing JSON response: " ++ e
    ∧ (search_pubmed (fun _ => Except.error (PyErr.otherErr e)) efetchHttp q n).1
        = "Unexpected error searching PubMed: " ++ e
    ∧ (search_pubmed esearchOkOne (fun _ => Except.error (PyErr.requestErr e)) q n).1
        = "Network error when accessing PubMed: " ++ e
    ∧ (search_pubmed esearchOkOne (fun _ => Except.ok (Except.error e)) q n).1
        = "Error parsing XML response: " ++ e
    ∧ s2HandleOutcome q (S2Outcome.timeoutErr e)
        = jsonErrString "Request timeout. Please try again."
    ∧ s2HandleOutcome q (S2Outcome.connectionErr e)
        = jsonErrString "Connection error. Please check your internet connection."
    ∧ s2HandleOutcome q (S2Outcome.requestErr e) = jsonErrString ("Request error: " ++ e)
    ∧ s2HandleOutcome q (S2Outcome.otherErr e) = jsonErrString ("Unexpected error: " ++ e)
    ∧ ((search_semantic_scholar (fun _ => S2Outcome.otherErr e) q n).1
          = jsonErrString ("Unexpected error: " ++ e)
        ∨ (search_semantic_scholar (fun _ => S2Outcome.otherErr e) q n).1
          = jsonErrString "Query cannot be empty")
    ∧ search_google_scholar none q n
        = "Error: scholarly library not installed. Install with: pip install scholarly"
    ∧ search_google_scholar (some (fun _ => Except.error e)) q n
        = "Error searching Google Scholar: " ++ e := by
  refine ⟨rfl, rfl, rfl, rfl, rfl, rfl, rfl, rfl, rfl, rfl, ?_, rfl, rfl⟩
  by_cases hq : pyStrip q = ""
  · right
    unfold search_semantic_scholar
    rw [if_pos hq]
  · left
    unfold search_semantic_scholar
    rw [if_neg hq]
    rfl

/-- C9: a PubMed `Author` record with no `LastName` element contributes
nothing to the assembled authors list — it is silently skipped, not rendered
with a placeholder — so the list can be strictly shorter than the number of
`Author` records, independently of the later cap at five. -/
theorem pubmed_author_without_lastname_skipped (xs ys : List PubmedAuthor)
    (author : PubmedAuthor) (article : PubmedArticle) (h : author.lastName = none) :
    pubmedAuthorName author = none
    ∧ pubmedAuthors (xs ++ author :: ys) = pubmedAuthors (xs ++ ys)
    ∧ (pubmedAuthors (xs ++ author :: ys)).length < (xs ++ author :: ys).length
    ∧ (pubmedPaperInfo article).authors = (pubmedAuthors article.authors).take 5 := by
  have h1 : pubmedAuthorName author = none := by
    unfold pubmedAuthorName
    rw [h]
  have h2 : pubmedAuthors (xs ++ author :: ys) = pubmedAuthors (xs ++ ys) := by
    simp [pubmedAuthors, List.filterMap_append, List.filterMap_cons, h1]
  have h3 : (pubmedAuthors (xs ++ author :: ys)).length < (xs ++ author :: ys).length := by
    rw [h2]
    have hle : (pubmedAuthors (xs ++ ys)).length ≤ (xs ++ ys).length :=
      List.length_filterMap_le _ _
    simp only [List.length_append, List.length_cons] at hle ⊢
    omega
  exact ⟨h1, h2, h3, rfl⟩

def authorSmith : PubmedAuthor := ⟨some "Smith", some "John", none⟩

def authorNoLast : PubmedAuthor := ⟨none, some "Jane", some "J"⟩

theorem pubmed_author_without_lastname_skipped_witness :
    pubmedAuthorName authorNoLast = none
    ∧ pubmedAuthors ([authorSmith] ++ authorNoLast :: [])
        = pubmedAuthors ([authorSmith] ++ [])
    ∧ (pubmedAuthors ([authorSmith] ++ authorNoLast :: [])).length
        < ([authorSmith] ++ authorNoLast :: []).length
    ∧ (pubmedPaperInfo demoArticle).authors = (pubmedAuthors demoArticle.authors).take 5 :=
  pubmed_author_without_lastname_skipped [authorSmith] [] authorNoLast demoArticle rfl

/-- C10: a `data` entry whose normalization raises is silently skipped while
the remaining entries are processed, and the envelope's `total_results`
equals the number of successfully normalized papers — always strictly fewer
than the provider count when such an entry is present. -/
theorem s2_failing_entries_skipped (xs ys : List S2Entry) (err : String) (query : String) :
    (s2ProcessData query (xs ++ Except.error err :: ys)).results
      = (s2ProcessData query (xs ++ ys)).results
    ∧ (s2ProcessData query (xs ++ Except.error err :: ys)).total_results
      = (s2ProcessData query (xs ++ Except.error err :: ys)).results.length
    ∧ (s2ProcessData query (xs ++ Except.error err :: ys)).results.length
      < (xs ++ Except.error err :: ys).length
    ∧ s2HandleOutcome query (S2Outcome.response 200 ""
        (Except.ok (some (xs ++ Except.error err :: ys))))
      = s2EnvelopeJson (s2ProcessData query (xs ++ Except.error err :: ys)) := by
  have h1 : (s2ProcessData query (xs ++ Except.error err :: ys)).results
      = (s2ProcessData query (xs ++ ys)).results := by
    simp [s2ProcessData, List.filterMap_append, List.filterMap_cons, s2Normalize]
  refine ⟨h1, rfl, ?_, ?_⟩
  · rw [h1]
    have hle : ((xs ++ ys).filterMap s2Normalize).length ≤ (xs ++ ys).length :=
      List.length_filterMap_le _ _
    simp only [s2ProcessData, List.length_append, List.length_cons] at hle ⊢
    omega
  · have hne : (xs ++ Except.error err :: ys).isEmpty = false := by
      cases xs <;> rfl
    simp [s2HandleOutcome, hne]
